import Mathlib

/-!
Shallow embedding of the CoachMate timetable scheduling routes.

The routes store times of day as zero-padded HH:MM strings and compare them
with the host language string comparison, which on such ASCII strings is the
lexicographic order on their character lists; the embedding therefore compares
`String.data` lists, which carries the same order and reduces in the kernel.
Each route handler is translated statement by statement from its source file:
the prisma where clauses become predicates over an explicit store record, and
each `throw new AppError(status, message)` becomes an `Except.error` carrying
the same status and message.
-/

/-- Days of the week, exactly the zod enum of the route schemas. -/
inductive DayOfWeek where
  | MONDAY
  | TUESDAY
  | WEDNESDAY
  | THURSDAY
  | FRIDAY
  | SATURDAY
  | SUNDAY
deriving DecidableEq

/-- Render a day the way the API prints it in messages. -/
def dayName : DayOfWeek → String
  | .MONDAY => "MONDAY"
  | .TUESDAY => "TUESDAY"
  | .WEDNESDAY => "WEDNESDAY"
  | .THURSDAY => "THURSDAY"
  | .FRIDAY => "FRIDAY"
  | .SATURDAY => "SATURDAY"
  | .SUNDAY => "SUNDAY"

/-- Position of a day in the enum, the order the database sorts the enum by. -/
def dayIdx : DayOfWeek → Nat
  | .MONDAY => 0
  | .TUESDAY => 1
  | .WEDNESDAY => 2
  | .THURSDAY => 3
  | .FRIDAY => 4
  | .SATURDAY => 5
  | .SUNDAY => 6

/-- Strict comparison of two stored time strings: lexicographic on the
character lists, which is what both the JS `<` and the database collation
apply to these zero-padded ASCII strings. -/
def timeLt (a b : String) : Bool := decide (a.data < b.data)

/-- Non-strict comparison of two stored time strings. -/
def timeLe (a b : String) : Bool := decide (a.data ≤ b.data)

/-- A row of the prisma `timetable` table, the one entity the scheduling
routes write. -/
structure Timetable where
  id : String
  classId : String
  subjectId : String
  teacherId : String
  dayOfWeek : DayOfWeek
  startTime : String
  endTime : String
  room : Option String
  isPrimary : Bool
  isActive : Bool
deriving DecidableEq

/-- A row of the `class` table, as far as the scheduling routes read it. -/
structure ClassRec where
  id : String
  instituteId : String
  name : String
deriving DecidableEq

/-- A row of the `subject` table, as far as the scheduling routes read it. -/
structure SubjectRec where
  id : String
  instituteId : String
  name : String
deriving DecidableEq

/-- A row of the `user` table, as far as the scheduling routes read it. -/
structure UserRec where
  id : String
  instituteId : String
  role : String
  isActive : Bool
deriving DecidableEq

/-- A row of the `teacherSubject` qualification table. -/
structure TeacherSubjectRec where
  teacherId : String
  subjectId : String
deriving DecidableEq

/-- The relational store the handlers read and write. -/
structure Db where
  classes : List ClassRec
  subjects : List SubjectRec
  users : List UserRec
  teacherSubjects : List TeacherSubjectRec
  timetables : List Timetable
deriving DecidableEq

/-- The authenticated caller context the middleware attaches to the request. -/
structure AuthUser where
  instituteId : String
deriving DecidableEq

/-- The error the routes throw: an HTTP status and a message. -/
structure AppError where
  status : Nat
  message : String
deriving DecidableEq

/-- prisma `class.findFirst` with the tenant-scoped where clause the handlers
build: `id` and `instituteId` both match. -/
def findClass (db : Db) (cid inst : String) : Option ClassRec :=
  db.classes.find? (fun c => decide (c.id = cid) && decide (c.instituteId = inst))

/-- prisma `subject.findFirst` with the tenant-scoped where clause. -/
def findSubject (db : Db) (sid inst : String) : Option SubjectRec :=
  db.subjects.find? (fun s => decide (s.id = sid) && decide (s.instituteId = inst))

/-- prisma `user.findFirst` with the where clause the handlers build for a
teacher: `id`, `instituteId` and `role: TEACHER`. -/
def findTeacher (db : Db) (tid inst : String) : Option UserRec :=
  db.users.find? (fun u =>
    decide (u.id = tid) && decide (u.instituteId = inst) && decide (u.role = "TEACHER"))

/-- The OR-of-three-AND-clauses where condition of the schedule routes, for an
existing row `[tS, tE)` against a candidate range `[cS, cE)`:
`(tS lte cS AND tE gt cS) OR (tS lt cE AND tE gte cE) OR (tS gte cS AND tE lte cE)`. -/
def threeClause (tS tE cS cE : String) : Bool :=
  (timeLe tS cS && timeLt cS tE) ||
  (timeLt tS cE && timeLe cE tE) ||
  (timeLe cS tS && timeLe tE cE)

/-- Modelled from the spec: the IntervalOverlap contract, missing as a shared
component in the source, defined by the words of section 4.1:
`a.start < b.end AND b.start < a.end` with half-open semantics. -/
def overlaps (aS aE bS bE : String) : Bool :=
  timeLt aS bE && timeLt bS aE

/-- The class name lookup the conflict message interpolates. -/
def className (db : Db) (cid : String) : String :=
  ((db.classes.find? (fun c => decide (c.id = cid))).map ClassRec.name).getD ("")

/-- The subject name lookup interpolated into the assignment error message. -/
def subjectName (db : Db) (sid : String) : String :=
  ((db.subjects.find? (fun s => decide (s.id = sid))).map SubjectRec.name).getD ("")

/-- The AppError thrown by the schedule routes when the interval scan finds a
colliding row `t` for a candidate on day `d`. -/
def timeConflictError (db : Db) (d : DayOfWeek) (t : Timetable) : AppError :=
  ⟨400, ("Time conflict detected: Teacher already has a class \"") ++ className db t.classId ++
    ("\" on ") ++ dayName d ++ (" from ") ++ t.startTime ++ (" to ") ++ t.endTime⟩

/-- The interval conflict scan of the schedule routes: first row of the same
teacher and day whose range satisfies the three-clause condition. -/
def schedConflictScan (db : Db) (tid : String) (d : DayOfWeek) (cS cE : String) :
    Option Timetable :=
  db.timetables.find? (fun t =>
    decide (t.teacherId = tid) && decide (t.dayOfWeek = d) &&
    threeClause t.startTime t.endTime cS cE)

/-- The body accepted by `createTimetableSchema`; zod fills `isPrimary` with
`true` when the caller omits it. -/
structure CreateTimetableInput where
  classId : String
  subjectId : String
  teacherId : String
  dayOfWeek : DayOfWeek
  startTime : String
  endTime : String
  room : Option String
  isPrimary : Bool
deriving DecidableEq

/-- POST /classes/:classId (timetable create). Checks, in source order: class
in tenant, subject in tenant, teacher in tenant, qualification, double-booking
by exact `(teacherId, dayOfWeek, startTime)` equality, exact duplicate, then
inserts the validated row with `isActive := true`. -/
def timetableCreate (db : Db) (user : AuthUser) (classIdParam : String)
    (v : CreateTimetableInput) (newId : String) : Except AppError Db :=
  match findClass db classIdParam user.instituteId with
  | none => .error ⟨404, "Class not found"⟩
  | some _ =>
  match findSubject db v.subjectId user.instituteId with
  | none => .error ⟨404, "Subject not found"⟩
  | some _ =>
  match findTeacher db v.teacherId user.instituteId with
  | none => .error ⟨404, "Teacher not found"⟩
  | some _ =>
  match db.teacherSubjects.find? (fun ts =>
      decide (ts.teacherId = v.teacherId) && decide (ts.subjectId = v.subjectId)) with
  | none => .error ⟨400, "Teacher is not qualified to teach this subject"⟩
  | some _ =>
  match db.timetables.find? (fun t =>
      decide (t.teacherId = v.teacherId) && decide (t.dayOfWeek = v.dayOfWeek) &&
      decide (t.startTime = v.startTime)) with
  | some _ => .error ⟨409, "Teacher is already scheduled at this time"⟩
  | none =>
  match db.timetables.find? (fun t =>
      decide (t.classId = v.classId) && decide (t.subjectId = v.subjectId) &&
      decide (t.teacherId = v.teacherId) && decide (t.dayOfWeek = v.dayOfWeek) &&
      decide (t.startTime = v.startTime)) with
  | some _ => .error ⟨409, "This timetable entry already exists"⟩
  | none =>
  .ok { db with timetables := db.timetables ++
    [{ id := newId, classId := v.classId, subjectId := v.subjectId,
       teacherId := v.teacherId, dayOfWeek := v.dayOfWeek,
       startTime := v.startTime, endTime := v.endTime, room := v.room,
       isPrimary := v.isPrimary, isActive := true }] }

/-- Ordering key of the list endpoints: `dayOfWeek` ascending then `startTime`
ascending. -/
def timetableLe (a b : Timetable) : Bool :=
  decide (dayIdx a.dayOfWeek < dayIdx b.dayOfWeek) ||
  (decide (a.dayOfWeek = b.dayOfWeek) && timeLe a.startTime b.startTime)

/-- Insert into a list sorted by `timetableLe`. -/
def insertSorted (t : Timetable) : List Timetable → List Timetable
  | [] => [t]
  | b :: bs => if timetableLe t b then t :: b :: bs else b :: insertSorted t bs

/-- Insertion sort by `timetableLe`, the orderBy of the list endpoints. -/
def sortByDayTime : List Timetable → List Timetable
  | [] => []
  | b :: bs => insertSorted b (sortByDayTime bs)

/-- GET / (timetable list). The where clause is built from the optional query
filters only; the handler reads the caller but never adds an institute
condition. -/
def timetableList (db : Db) (user : AuthUser)
    (classIdQ teacherIdQ : Option String) (dayQ : Option DayOfWeek) :
    List Timetable :=
  let _ := user
  sortByDayTime (db.timetables.filter (fun t =>
    (match classIdQ with | some c => decide (t.classId = c) | none => true) &&
    (match teacherIdQ with | some x => decide (t.teacherId = x) | none => true) &&
    (match dayQ with | some d => decide (t.dayOfWeek = d) | none => true)))

/-- GET /:id (timetable entry). prisma `findUnique` on the id alone; the
handler never consults the caller context. -/
def timetableGet (db : Db) (idParam : String) : Except AppError Timetable :=
  match db.timetables.find? (fun t => decide (t.id = idParam)) with
  | none => .error ⟨404, "Timetable entry not found"⟩
  | some t => .ok t

/-- DELETE /:id (timetable). Loads the row by id alone, then
`prisma.timetable.delete`, which removes the row from the table. -/
def timetableDelete (db : Db) (idParam : String) : Except AppError Db :=
  match db.timetables.find? (fun t => decide (t.id = idParam)) with
  | none => .error ⟨404, "Timetable entry not found"⟩
  | some _ =>
    .ok { db with timetables := db.timetables.filter (fun t => !decide (t.id = idParam)) }

/-- The body accepted by `createScheduleSchema`: no subject field at all. -/
structure CreateScheduleInput where
  classId : String
  dayOfWeek : DayOfWeek
  startTime : String
  endTime : String
  room : Option String
deriving DecidableEq

/-- POST /teachers/:id/schedules. Checks, in source order: teacher in tenant,
class in tenant, `startTime >= endTime` guard, three-clause interval conflict
scan, then inserts with `subjectId` set to the empty string (the source marks
this with a TODO). The prisma schema is not part of the sources; the column
defaults it supplies for the omitted `isPrimary` and `isActive` fields are
modelled from the spec as `false` and `true`. -/
def schedCreate (db : Db) (user : AuthUser) (idParam : String)
    (data : CreateScheduleInput) (newId : String) : Except AppError Db :=
  match findTeacher db idParam user.instituteId with
  | none => .error ⟨404, "Teacher not found"⟩
  | some _ =>
  match findClass db data.classId user.instituteId with
  | none => .error ⟨404, "Class not found"⟩
  | some _ =>
  if timeLe data.endTime data.startTime then
    .error ⟨400, "End time must be after start time"⟩
  else
    match schedConflictScan db idParam data.dayOfWeek data.startTime data.endTime with
    | some c => .error (timeConflictError db data.dayOfWeek c)
    | none =>
      .ok { db with timetables := db.timetables ++
        [{ id := newId, classId := data.classId, subjectId := "",
           teacherId := idParam, dayOfWeek := data.dayOfWeek,
           startTime := data.startTime, endTime := data.endTime,
           room := data.room, isPrimary := false, isActive := true }] }

/-- The response body of the conflict probe. -/
structure ConflictCheckResult where
  hasConflict : Bool
  conflicts : List Timetable
deriving DecidableEq

/-- POST /schedules/conflicts/check. Verifies the teacher belongs to the
tenant, then collects every row of the same teacher and day satisfying the
three-clause condition, minus the optional excluded id; `hasConflict` is
whether the collection is non-empty. -/
def checkConflict (db : Db) (user : AuthUser) (teacherId : String)
    (dayOfWeek : DayOfWeek) (startTime endTime : String)
    (excludeScheduleId : Option String) : Except AppError ConflictCheckResult :=
  match findTeacher db teacherId user.instituteId with
  | none => .error ⟨404, "Teacher not found"⟩
  | some _ =>
    let conflicts := db.timetables.filter (fun t =>
      decide (t.teacherId = teacherId) && decide (t.dayOfWeek = dayOfWeek) &&
      threeClause t.startTime t.endTime startTime endTime &&
      (match excludeScheduleId with
       | some ex => !decide (t.id = ex)
       | none => true))
    .ok ⟨decide (0 < conflicts.length), conflicts⟩

/-- The body accepted by `assignTeacherSchema`; zod fills `isPrimary` with
`false` when the caller omits it. -/
structure AssignTeacherInput where
  teacherId : String
  isPrimary : Bool
deriving DecidableEq

/-- POST /classes/:id/teachers (teacher-class assignment). Checks class and
active teacher in tenant, that the teacher can teach some subject already on
the class timetable, and that no assignment for this class and teacher exists;
when `isPrimary` is requested it first demotes every primary row of the class,
then inserts a placeholder row with the first class subject (or the empty
string), day MONDAY and the fixed 09:00 to 10:00 slot. No time conflict scan
is performed. The `isActive` column default is modelled from the spec as
`true`; the source error message also lists the teachers own subject names,
a suffix this embedding omits. -/
def assignmentCreate (db : Db) (user : AuthUser) (idParam : String)
    (data : AssignTeacherInput) (newId : String) : Except AppError Db :=
  match findClass db idParam user.instituteId with
  | none => .error ⟨404, "Class not found"⟩
  | some _ =>
  match db.users.find? (fun u =>
      decide (u.id = data.teacherId) && decide (u.instituteId = user.instituteId) &&
      decide (u.role = "TEACHER") && u.isActive) with
  | none => .error ⟨404, "Teacher not found or inactive"⟩
  | some _ =>
    let classTimetables := db.timetables.filter (fun t => decide (t.classId = idParam))
    let classSubjectIds := classTimetables.map Timetable.subjectId
    let teacherSubjectIds :=
      (db.teacherSubjects.filter (fun ts => decide (ts.teacherId = data.teacherId))).map
        TeacherSubjectRec.subjectId
    if !(teacherSubjectIds.any (fun s => classSubjectIds.contains s)) then
      .error ⟨400, ("Teacher cannot teach any subjects in this class (") ++
        String.intercalate (", ") (classSubjectIds.map (subjectName db)) ++ (")")⟩
    else
      match db.timetables.find? (fun t =>
          decide (t.classId = idParam) && decide (t.teacherId = data.teacherId)) with
      | some _ => .error ⟨400, "Teacher is already assigned to this class"⟩
      | none =>
        let db1 :=
          if data.isPrimary then
            { db with timetables := db.timetables.map (fun t =>
                if decide (t.classId = idParam) && t.isPrimary then
                  { t with isPrimary := false }
                else t) }
          else db
        let defaultSubjectId := (classTimetables.head?.map Timetable.subjectId).getD ("")
        .ok { db1 with timetables := db1.timetables ++
          [{ id := newId, classId := idParam, subjectId := defaultSubjectId,
             teacherId := data.teacherId, dayOfWeek := .MONDAY,
             startTime := "09:00", endTime := "10:00", room := none,
             isPrimary := data.isPrimary, isActive := true }] }

/-- The spec invariant of claim C2: active entries of one teacher and day have
pairwise non-overlapping half-open ranges. -/
def overlapFree (ts : List Timetable) : Bool :=
  ts.all (fun a => ts.all (fun b =>
    !(a.isActive && b.isActive && !decide (a.id = b.id) &&
      decide (a.teacherId = b.teacherId) && decide (a.dayOfWeek = b.dayOfWeek) &&
      overlaps a.startTime a.endTime b.startTime b.endTime)))

/-- The spec invariant of claim C3: at most one active entry per class has
`isPrimary = true`. -/
def singlePrimary (ts : List Timetable) : Bool :=
  ts.all (fun a => ts.all (fun b =>
    !(a.isActive && b.isActive && !decide (a.id = b.id) &&
      decide (a.classId = b.classId) && a.isPrimary && b.isPrimary)))

/-- Example tenant caller of institute instA. -/
def authA : AuthUser := ⟨"instA"⟩

/-- Existing Monday 09:00 to 10:00 entry of teacher t1 in class cA. -/
def e0 : Timetable :=
  { id := "e0", classId := "cA", subjectId := "s1", teacherId := "t1",
    dayOfWeek := .MONDAY, startTime := "09:00", endTime := "10:00",
    room := none, isPrimary := true, isActive := true }

/-- Store for the double-booking scenarios: teacher t1 qualified for subject
s1, classes cA and cB, and the single existing entry e0. -/
def db1 : Db :=
  { classes := [⟨"cA", "instA", "Class A"⟩, ⟨"cB", "instA", "Class B"⟩],
    subjects := [⟨"s1", "instA", "Math"⟩],
    users := [⟨"t1", "instA", "TEACHER", true⟩],
    teacherSubjects := [⟨"t1", "s1"⟩],
    timetables := [e0] }

/-- Overlapping candidate body: class cB, Monday 09:30 to 10:30. -/
def in1 : CreateTimetableInput :=
  { classId := "cB", subjectId := "s1", teacherId := "t1", dayOfWeek := .MONDAY,
    startTime := "09:30", endTime := "10:30", room := none, isPrimary := true }

/-- The same candidate range for the schedule create route. -/
def sIn1 : CreateScheduleInput :=
  { classId := "cB", dayOfWeek := .MONDAY, startTime := "09:30",
    endTime := "10:30", room := none }

/-- Store for the assignment scenario: classes c1 and c2 each hold one
timetable row of subject s1 on distinct days, and teacher t1 teaches s1. -/
def db2 : Db :=
  { classes := [⟨"c1", "instA", "Class 1"⟩, ⟨"c2", "instA", "Class 2"⟩],
    subjects := [⟨"s1", "instA", "Math"⟩],
    users := [⟨"t1", "instA", "TEACHER", true⟩, ⟨"t2", "instA", "TEACHER", true⟩,
              ⟨"t3", "instA", "TEACHER", true⟩],
    teacherSubjects := [⟨"t1", "s1"⟩],
    timetables :=
      [{ id := "f1", classId := "c1", subjectId := "s1", teacherId := "t2",
         dayOfWeek := .TUESDAY, startTime := "08:00", endTime := "09:00",
         room := none, isPrimary := false, isActive := true },
       { id := "f2", classId := "c2", subjectId := "s1", teacherId := "t3",
         dayOfWeek := .WEDNESDAY, startTime := "08:00", endTime := "09:00",
         room := none, isPrimary := false, isActive := true }] }

/-- Assignment body naming teacher t1, with the zod default for isPrimary. -/
def asg1 : AssignTeacherInput := ⟨"t1", false⟩

/-- Store for the primary-flag and validation scenarios: one class, two
subjects, teacher t1 qualified for both, empty timetable. -/
def db3 : Db :=
  { classes := [⟨"c1", "instA", "Class 1"⟩],
    subjects := [⟨"s1", "instA", "Math"⟩, ⟨"s2", "instA", "Physics"⟩],
    users := [⟨"t1", "instA", "TEACHER", true⟩],
    teacherSubjects := [⟨"t1", "s1"⟩, ⟨"t1", "s2"⟩],
    timetables := [] }

/-- First create body: subject s1, Monday 09:00 to 10:00, default isPrimary. -/
def in3a : CreateTimetableInput :=
  ⟨"c1", "s1", "t1", .MONDAY, "09:00", "10:00", none, true⟩

/-- Second create body: subject s2, Monday 10:00 to 11:00, default isPrimary. -/
def in3b : CreateTimetableInput :=
  ⟨"c1", "s2", "t1", .MONDAY, "10:00", "11:00", none, true⟩

/-- Degenerate create body: startTime 10:00 after endTime 09:00. -/
def in4 : CreateTimetableInput :=
  ⟨"c1", "s1", "t1", .MONDAY, "10:00", "09:00", none, true⟩

/-- Store for the qualification scenario: teacher t1 qualified for s1 only. -/
def db7 : Db :=
  { classes := [⟨"c1", "instA", "Class 1"⟩],
    subjects := [⟨"s1", "instA", "Math"⟩],
    users := [⟨"t1", "instA", "TEACHER", true⟩],
    teacherSubjects := [⟨"t1", "s1"⟩],
    timetables := [] }

/-- Schedule create body for db7: Monday 09:00 to 10:00 in class c1. -/
def sIn7 : CreateScheduleInput := ⟨"c1", .MONDAY, "09:00", "10:00", none⟩

/-- A stored entry to be deleted. -/
def m1 : Timetable :=
  ⟨"m1", "cA", "s1", "t1", .MONDAY, "09:00", "10:00", none, false, true⟩

/-- Store for the delete scenario. -/
def db8 : Db :=
  { classes := [⟨"cA", "instA", "Class A"⟩],
    subjects := [],
    users := [⟨"t1", "instA", "TEACHER", true⟩],
    teacherSubjects := [],
    timetables := [m1] }

/-- Two-tenant store: entry x1 belongs to institute instA through class cA,
entry x2 to institute instB through class cB. -/
def db10 : Db :=
  { classes := [⟨"cA", "instA", "Class A"⟩, ⟨"cB", "instB", "Class B"⟩],
    subjects := [⟨"s1", "instA", "Math"⟩],
    users := [⟨"t1", "instA", "TEACHER", true⟩, ⟨"t9", "instB", "TEACHER", true⟩],
    teacherSubjects := [],
    timetables :=
      [⟨"x1", "cA", "s1", "t1", .MONDAY, "09:00", "10:00", none, false, true⟩,
       ⟨"x2", "cB", "s9", "t9", .MONDAY, "09:00", "10:00", none, false, true⟩] }

/-- Two booleans agreeing on truth are equal. -/
theorem bool_eq_of_iff {x y : Bool} (h : (x = true) ↔ (y = true)) : x = y := by
  cases x <;> cases y <;> simp_all

/-- C1: with teacher t1 already scheduled Monday 09:00 to 10:00 (entry e0),
the class timetable create accepts the overlapping Monday 09:30 to 10:30
candidate, because its double-booking check compares startTime for equality
only; the schedule create route rejects the very same candidate range as a
time conflict against e0. -/
theorem timetableCreate_accepts_overlap :
    (timetableCreate db1 authA ("cB") in1 ("e2")).map (fun d => d.timetables.length) =
      Except.ok 2
  ∧ overlaps e0.startTime e0.endTime in1.startTime in1.endTime = true
  ∧ schedCreate db1 authA ("t1") sIn1 ("e2") =
      Except.error (timeConflictError db1 DayOfWeek.MONDAY e0) :=
  ⟨rfl, rfl, rfl⟩

/-- C2: the pairwise non-overlap invariant holds in db2, yet two successful
teacher-class assignment creates leave teacher t1 with two identical active
Monday 09:00 to 10:00 entries, one per class. -/
theorem assignmentCreate_breaks_overlap_invariant :
    overlapFree db2.timetables = true
  ∧ ((assignmentCreate db2 authA ("c1") asg1 ("g1")).bind
      (fun d => assignmentCreate d authA ("c2") asg1 ("g2"))).map
      (fun d => overlapFree d.timetables) = Except.ok false :=
  ⟨rfl, rfl⟩

/-- C3: the single-primary invariant holds in db3, yet two successful class
timetable creates with the default isPrimary leave class c1 with two active
primary entries, since the create handler performs no demotion. -/
theorem timetableCreate_breaks_primary_invariant :
    singlePrimary db3.timetables = true
  ∧ ((timetableCreate db3 authA ("c1") in3a ("h1")).bind
      (fun d => timetableCreate d authA ("c1") in3b ("h2"))).map
      (fun d => singlePrimary d.timetables) = Except.ok false :=
  ⟨rfl, rfl⟩

/-- C4: the class timetable create accepts a body whose startTime 10:00 is
after its endTime 09:00 and stores the degenerate active entry, because the
schema validates each time field separately and the handler never compares
them. -/
theorem timetableCreate_accepts_degenerate_range :
    (timetableCreate db3 authA ("c1") in4 ("h1")).map
      (fun d => d.timetables.any (fun t => timeLe t.endTime t.startTime && t.isActive)) =
      Except.ok true :=
  rfl

/-- C7: the schedule create succeeds while writing an entry whose subjectId is
the empty string, which belongs to no qualification row of teacher t1; no
qualification check runs on this path. -/
theorem schedCreate_skips_qualification :
    db7.teacherSubjects.all (fun ts => !decide (ts.subjectId = "")) = true
  ∧ (schedCreate db7 authA ("t1") sIn7 ("k1")).map
      (fun d => d.timetables.any (fun t => decide (t.subjectId = "") && t.isActive)) =
      Except.ok true :=
  ⟨rfl, rfl⟩

/-- C8 counterexample: after a successful delete the entry m1 is gone from the
store rather than retained with isActive set to false. -/
theorem timetableDelete_not_soft :
    (timetableDelete db8 ("m1")).map
      (fun d => d.timetables.any (fun t => decide (t.id = "m1"))) = Except.ok false :=
  rfl

/-- C10: the caller from institute instA receives entry x2 from both read
endpoints although x2 belongs to institute instB through its class cB. -/
theorem timetableRead_leaks_foreign_tenant :
    authA.instituteId = "instA"
  ∧ (db10.classes.find? (fun c => decide (c.id = "cB"))).map ClassRec.instituteId =
      some ("instB")
  ∧ (timetableList db10 authA none none none).any (fun t => decide (t.id = "x2")) = true
  ∧ (timetableGet db10 ("x2")).map Timetable.classId = Except.ok ("cB") :=
  ⟨rfl, rfl, rfl, rfl⟩

/-- C6 counterexample: the probe reports a conflict for teacher t1 on Monday
09:30 to 10:30, yet the class timetable create with the same teacher, day and
range succeeds. -/
theorem checkConflict_drifts_from_timetableCreate :
    (checkConflict db1 authA ("t1") DayOfWeek.MONDAY ("09:30") ("10:30") none).map
      ConflictCheckResult.hasConflict = Except.ok true
  ∧ (timetableCreate db1 authA ("cB") in1 ("e2")).map (fun d => d.timetables.length) =
      Except.ok 2 :=
  ⟨rfl, rfl⟩

/-- On proper ranges the three-clause condition holds exactly on overlap. -/
theorem threeClause_iff_overlap (eS eE cS cE : String)
    (he : timeLt eS eE = true) (hc : timeLt cS cE = true) :
    threeClause eS eE cS cE = true ↔ (eS.data < cE.data ∧ cS.data < eE.data) := by
  have he' : eS.data < eE.data := by simpa [timeLt] using he
  have hc' : cS.data < cE.data := by simpa [timeLt] using hc
  simp only [threeClause, timeLe, timeLt, Bool.or_eq_true, Bool.and_eq_true,
    decide_eq_true_eq]
  constructor
  · rintro ((⟨h1, h2⟩ | ⟨h1, h2⟩) | ⟨h1, h2⟩)
    · exact ⟨lt_of_le_of_lt h1 hc', h2⟩
    · exact ⟨h1, lt_of_lt_of_le hc' h2⟩
    · exact ⟨lt_of_lt_of_le he' h2, lt_of_le_of_lt h1 he'⟩
  · rintro ⟨h1, h2⟩
    rcases le_or_lt eS.data cS.data with hle | hlt
    · exact Or.inl (Or.inl ⟨hle, h2⟩)
    · rcases le_or_lt eE.data cE.data with hle2 | hlt2
      · exact Or.inr ⟨le_of_lt hlt, hle2⟩
      · exact Or.inl (Or.inr ⟨h1, le_of_lt hlt2⟩)

/-- C5: for proper ranges the three-clause disjunction used by the schedule
routes equals the spec overlap predicate; overlap is symmetric; and ranges
that merely touch at the boundary do not overlap. -/
theorem threeClause_matches_overlap (eS eE cS cE : String)
    (he : timeLt eS eE = true) (hc : timeLt cS cE = true) :
    threeClause eS eE cS cE = overlaps eS eE cS cE
  ∧ overlaps eS eE cS cE = overlaps cS cE eS eE
  ∧ (eE = cS → overlaps eS eE cS cE = false) := by
  refine ⟨?_, ?_, ?_⟩
  · refine bool_eq_of_iff ?_
    rw [threeClause_iff_overlap eS eE cS cE he hc]
    simp [overlaps, timeLt]
  · simp [overlaps, Bool.and_comm]
  · intro h
    subst h
    simp [overlaps, timeLt]

/-- C5 witness at the spec scenario ranges 09:00 to 10:00 and 09:30 to
10:30. -/
theorem threeClause_matches_overlap_witness :
    timeLt ("09:00") ("10:00") = true ∧ timeLt ("09:30") ("10:30") = true ∧
    (threeClause ("09:00") ("10:00") ("09:30") ("10:30") =
        overlaps ("09:00") ("10:00") ("09:30") ("10:30")
      ∧ overlaps ("09:00") ("10:00") ("09:30") ("10:30") =
        overlaps ("09:30") ("10:30") ("09:00") ("10:00")
      ∧ (("10:00" : String) = ("09:30") →
          overlaps ("09:00") ("10:00") ("09:30") ("10:30") = false)) :=
  ⟨by decide, by decide,
    threeClause_matches_overlap ("09:00") ("10:00") ("09:30") ("10:30")
      (by decide) (by decide)⟩

/-- A filter is non-empty exactly when the matching find? succeeds. -/
theorem filter_pos_iff_find_isSome {α : Type} (p : α → Bool) (l : List α) :
    (decide (0 < (l.filter p).length) = true) ↔ ((l.find? p).isSome = true) := by
  constructor
  · intro h
    have hpos : 0 < (l.filter p).length := of_decide_eq_true h
    rcases List.exists_mem_of_length_pos hpos with ⟨a, ha⟩
    rcases List.mem_filter.mp ha with ⟨hmem, hpa⟩
    exact List.find?_isSome.mpr ⟨a, hmem, hpa⟩
  · intro h
    rcases Option.isSome_iff_exists.mp h with ⟨a, ha⟩
    have hmem := List.mem_of_find?_eq_some ha
    have hpa := List.find?_some ha
    exact decide_eq_true
      (List.length_pos_of_mem (List.mem_filter.mpr ⟨hmem, hpa⟩))

/-- C6 amended: for a tenant-valid teacher and class, a proper candidate range
and no exclusion, the probe reports hasConflict exactly when the schedule
create with the same teacher, day and range fails with the time-conflict
error. -/
theorem checkConflict_agrees_with_schedCreate (db : Db) (user : AuthUser)
    (tid newId : String) (inp : CreateScheduleInput)
    (hT : (findTeacher db tid user.instituteId).isSome = true)
    (hC : (findClass db inp.classId user.instituteId).isSome = true)
    (hTime : timeLe inp.endTime inp.startTime = false) :
    ((checkConflict db user tid inp.dayOfWeek inp.startTime inp.endTime none).map
        ConflictCheckResult.hasConflict = Except.ok true)
  ↔ ∃ t, schedCreate db user tid inp newId =
      Except.error (timeConflictError db inp.dayOfWeek t) := by
  rcases Option.isSome_iff_exists.mp hT with ⟨u, hu⟩
  rcases Option.isSome_iff_exists.mp hC with ⟨cl, hcl⟩
  have key1 : ((checkConflict db user tid inp.dayOfWeek inp.startTime inp.endTime none).map
      ConflictCheckResult.hasConflict = Except.ok true)
      ↔ ((schedConflictScan db tid inp.dayOfWeek inp.startTime inp.endTime).isSome = true) := by
    simp only [checkConflict, hu, Except.map, Except.ok.injEq, schedConflictScan,
      Bool.and_true]
    exact filter_pos_iff_find_isSome _ _
  have key2 : (∃ t, schedCreate db user tid inp newId =
      Except.error (timeConflictError db inp.dayOfWeek t))
      ↔ ((schedConflictScan db tid inp.dayOfWeek inp.startTime inp.endTime).isSome = true) := by
    cases hscan : schedConflictScan db tid inp.dayOfWeek inp.startTime inp.endTime with
    | none =>
      simp only [schedCreate, hu, hcl, hTime, hscan, Option.isSome_none]
      constructor
      · rintro ⟨t, ht⟩
        simp at ht
      · intro hfalse
        simp at hfalse
    | some c =>
      simp only [schedCreate, hu, hcl, hTime, hscan, Option.isSome_some,
        Bool.false_eq_true, if_false, iff_true]
      exact ⟨c, rfl⟩
  exact key1.trans key2.symm

/-- C6 amended witness: in db1 the probe and the schedule create agree on the
conflicting 09:30 to 10:30 candidate of teacher t1. -/
theorem checkConflict_agrees_witness :
    (findTeacher db1 ("t1") authA.instituteId).isSome = true
  ∧ (findClass db1 sIn1.classId authA.instituteId).isSome = true
  ∧ timeLe sIn1.endTime sIn1.startTime = false
  ∧ (((checkConflict db1 authA ("t1") sIn1.dayOfWeek sIn1.startTime sIn1.endTime none).map
        ConflictCheckResult.hasConflict = Except.ok true)
      ↔ ∃ t, schedCreate db1 authA ("t1") sIn1 ("e9") =
          Except.error (timeConflictError db1 sIn1.dayOfWeek t)) :=
  ⟨by decide, by decide, by decide,
    checkConflict_agrees_with_schedCreate db1 authA ("t1") ("e9") sIn1
      (by decide) (by decide) (by decide)⟩

/-- C8 amended: when the entry exists, delete succeeds and yields the store
whose timetable rows are exactly the previous ones with a different id; the
other tables are untouched. -/
theorem timetableDelete_removes_entry (db : Db) (idParam : String)
    (h : (db.timetables.find? (fun t => decide (t.id = idParam))).isSome = true) :
    ∃ d2, timetableDelete db idParam = Except.ok d2
      ∧ (∀ e, e ∈ d2.timetables ↔ e ∈ db.timetables ∧ e.id ≠ idParam)
      ∧ d2.classes = db.classes ∧ d2.subjects = db.subjects
      ∧ d2.users = db.users ∧ d2.teacherSubjects = db.teacherSubjects := by
  rcases Option.isSome_iff_exists.mp h with ⟨t0, ht0⟩
  refine ⟨{ db with timetables := db.timetables.filter (fun t => !decide (t.id = idParam)) },
    ?_, ?_, rfl, rfl, rfl, rfl⟩
  · simp only [timetableDelete, ht0]
  · intro e
    simp [List.mem_filter]

/-- C8 amended witness at the one-entry store db8. -/
theorem timetableDelete_removes_entry_witness :
    (db8.timetables.find? (fun t => decide (t.id = "m1"))).isSome = true
  ∧ ∃ d2, timetableDelete db8 ("m1") = Except.ok d2
      ∧ (∀ e, e ∈ d2.timetables ↔ e ∈ db8.timetables ∧ e.id ≠ "m1")
      ∧ d2.classes = db8.classes ∧ d2.subjects = db8.subjects
      ∧ d2.users = db8.users ∧ d2.teacherSubjects = db8.teacherSubjects :=
  ⟨by decide, timetableDelete_removes_entry db8 ("m1") (by decide)⟩
